import Mathlib

/-!
Verification of the chart-computation and transit-forecast engine of the
astrology platform (source modules `astrology/local_calculate.py` and
`astrology/predictions.py`, plus the `predictions/love` endpoint of
`astrology/app.py`).

The Python code is shallowly embedded: floating-point longitudes are modelled
as rationals (`ℚ`), Python's `%` on nonnegative-modulus floats as
`pymod x m = x - m * ⌊x / m⌋`, Python `int()` on nonnegative values as
`Int.floor`, Python list indexing (which raises `IndexError` out of range) as
`List.get?` returning `Option`, and Python integer `//` as `Int.fdiv`
(floor division).  Fixed string tables are carried verbatim from the source.
-/

namespace Astro

/-- The nine celestial bodies of `local_calculate.PlanetName`. -/
inductive Planet where
  | Sun | Moon | Mars | Mercury | Jupiter | Venus | Saturn | Rahu | Ketu
deriving DecidableEq, Repr

/-- `ZODIAC_SIGNS` from `local_calculate.py`. -/
def ZODIAC_SIGNS : List String :=
  ["Aries", "Taurus", "Gemini", "Cancer", "Leo", "Virgo",
   "Libra", "Scorpio", "Sagittarius", "Capricorn", "Aquarius", "Pisces"]

/-- The `NAKSHATRAS` table of `LocalCalculate.get_nakshatra` (27 names;
note the spelling "Mula", not "Moola"). -/
def NAKSHATRAS : List String :=
  ["Ashwini", "Bharani", "Krittika", "Rohini", "Mrigashira", "Ardra",
   "Punarvasu", "Pushya", "Ashlesha", "Magha", "Purva Phalguni", "Uttara Phalguni",
   "Hasta", "Chitra", "Swati", "Vishakha", "Anuradha", "Jyeshtha",
   "Mula", "Purva Ashadha", "Uttara Ashadha", "Shravana", "Dhanishta", "Shatabhisha",
   "Purva Bhadrapada", "Uttara Bhadrapada", "Revati"]

/-- Python's `x % m` for a positive modulus `m` (as on floats):
`x - m * floor(x / m)`. -/
def pymod (x m : ℚ) : ℚ := x - m * ⌊x / m⌋

/-- `LocalCalculate.longitude_to_sign`: `sign_index = int(longitude / 30)`,
`degrees_in_sign = longitude % 30`, and the sign name is
`ZODIAC_SIGNS[sign_index]` (list indexing modelled as `List.get?`; `int()` on
the nonnegative inputs of the claims equals `Int.floor`). -/
def longitude_to_sign (longitude : ℚ) : Option (String × ℚ) :=
  (ZODIAC_SIGNS.get? (⌊longitude / 30⌋).toNat).map
    (fun s => (s, pymod longitude 30))

/-- Truncated constant `13.333333` used by `get_nakshatra` (the source writes
the decimal literal, not `360/27`). -/
def nak13 : ℚ := 13333333 / 1000000

/-- Truncated constant `3.333333` used by `get_nakshatra`. -/
def nak3 : ℚ := 3333333 / 1000000

/-- `LocalCalculate.get_nakshatra`:
`nakshatra_index = int(longitude / 13.333333)`,
`pada = int((longitude % 13.333333) / 3.333333) + 1`, and the name is
`NAKSHATRAS[nakshatra_index]`; indexing out of the 27-element table raises
`IndexError` in Python, modelled here as `none`. -/
def get_nakshatra (longitude : ℚ) : Option (String × ℤ) :=
  let idx := ⌊longitude / nak13⌋
  let pada := ⌊pymod longitude nak13 / nak3⌋ + 1
  (NAKSHATRAS.get? idx.toNat).map (fun nk => (nk, pada))

/-- `LocalCalculate.get_planet_longitude`, as a function of the provider's
tropical longitude and the ayanamsa for the instant (both lunar nodes share
the provider id `swe.MEAN_NODE`, so Rahu and Ketu receive the same tropical
longitude): sidereal = tropical − ayanamsa; for Ketu add 180° and reduce
mod 360; finally, if the value is negative, add 360. -/
def get_planet_longitude (planet : Planet) (tropical ayanamsa : ℚ) : ℚ :=
  let nirayana := tropical - ayanamsa
  let nirayana :=
    if planet = Planet.Ketu then pymod (nirayana + 180) 360 else nirayana
  if nirayana < 0 then nirayana + 360 else nirayana

/-- The transiting-Moon nakshatra adjustment inside
`_calculate_success_probability` (`predictions.py`): +10 when the Moon's
nakshatra is in the favorable list, −10 when it is in the unfavorable list
`["Ashlesha", "Jyeshtha", "Moola", "Ardra"]` (note the spelling "Moola"),
otherwise 0. -/
def moon_nakshatra_adjustment (nk : String) : ℤ :=
  if nk ∈ ["Rohini", "Pushya", "Hasta", "Shravana", "Revati"] then 10
  else if nk ∈ ["Ashlesha", "Jyeshtha", "Moola", "Ardra"] then -10
  else 0

/-- The wrap-aware membership test inside `LocalCalculate.get_planet_house`
for cusp pair `i`: `start = house_cusps[i]`, `end = house_cusps[(i+1) % 12]`;
when `end < start` (the pair straddles 0°) membership is
`planet_long >= start or planet_long < end`, otherwise
`start <= planet_long < end`.  `Fin 12` addition is the `% 12` of the source. -/
def house_memb (cusps : Fin 12 → ℚ) (x : ℚ) (i : Fin 12) : Bool :=
  let start := cusps i
  let stop := cusps (i + 1)
  if stop < start then decide (x ≥ start) || decide (x < stop)
  else decide (start ≤ x) && decide (x < stop)

/-- `LocalCalculate.get_planet_house`: scan `i = 0..11` in order and return
`i + 1` at the first matching cusp interval; return 1 (the defensive
default of the final `return 1`) when no interval matches. -/
def get_planet_house (x : ℚ) (cusps : Fin 12 → ℚ) : ℕ :=
  match (List.finRange 12).find? (house_memb cusps x) with
  | some i => i.val + 1
  | none => 1

/-- Valid house cusps: twelve longitudes in [0,360) that are strictly
increasing cyclically — one adjacent pair descends (the wrap-around pair at
index `d`) and every other adjacent pair ascends. -/
def validCusps (cusps : Fin 12 → ℚ) : Prop :=
  (∀ i, 0 ≤ cusps i ∧ cusps i < 360) ∧
  ∃ d : Fin 12, cusps (d + 1) < cusps d ∧
    ∀ i, i ≠ d → cusps i < cusps (i + 1)

/-- The cusp sequence unrolled from the wrap index: the cusp at offset `j`
(taken mod 12) after `d`. -/
def cuspChain (cusps : Fin 12 → ℚ) (d : Fin 12) (j : ℕ) : ℚ :=
  cusps (d + (j : Fin 12))

/-- A concrete valid cusp set for the witness: 300, 330, 0, 30, …, 270
(the wrap-around pair sits between indices 1 and 2). -/
def witnessCusps : Fin 12 → ℚ := fun i =>
  [300, 330, 0, 30, 60, 90, 120, 150, 180, 210, 240, 270].getD i.val 0

/-- The seven bodies tracked by `get_transit_predictions` (the two nodes are
excluded from transit scoring). -/
def trackedBodies : List Planet :=
  [Planet.Jupiter, Planet.Saturn, Planet.Mars, Planet.Venus, Planet.Mercury,
   Planet.Sun, Planet.Moon]

/-- `beneficial_houses` of `_analyze_transit_effect`. -/
def beneficial_houses : List ℕ := [1, 2, 4, 5, 7, 9, 10, 11]

/-- `challenging_houses` (dusthana) of `_analyze_transit_effect`. -/
def challenging_houses : List ℕ := [6, 8, 12]

/-- `is_benefic` of `_analyze_transit_effect`: Jupiter, Venus or Mercury. -/
def is_benefic (p : Planet) : Bool :=
  decide (p ∈ [Planet.Jupiter, Planet.Venus, Planet.Mercury])

/-- `is_malefic` of `_analyze_transit_effect`: Saturn, Mars or either node. -/
def is_malefic (p : Planet) : Bool :=
  decide (p ∈ [Planet.Saturn, Planet.Mars, Planet.Rahu, Planet.Ketu])

/-- The effect classification of `PredictionEngine._analyze_transit_effect`:
`effect` starts "neutral"; in a benefic house a benefic body gives
"positive" and any other body gives "mixed"; in a challenging house a
malefic body gives "challenging" and any other body gives "mixed". -/
def analyze_transit_effect (planet : Planet) (transit_house : ℕ) : String :=
  if transit_house ∈ beneficial_houses then
    if is_benefic planet then "positive" else "mixed"
  else if transit_house ∈ challenging_houses then
    if is_malefic planet then "challenging" else "mixed"
  else "neutral"

/-- The `effect_scores` dict of `_update_area_scores`
(`.get(effect, 0)` for unknown keys). -/
def effect_scores (effect : String) : ℤ :=
  if effect = "positive" then 2
  else if effect = "mixed" then 0
  else if effect = "neutral" then 0
  else if effect = "challenging" then -2
  else 0

/-- The `house_to_area` lookup of `_update_area_scores` as the Python dict
literal actually evaluates: the literal repeats keys 11 and 6, and Python
keeps only the last binding of a repeated key, so 11 maps to "wealth" (the
"love" binding is overwritten) and 6 maps to "career" (the "health" binding
is overwritten); every house feeds at most one area. -/
def house_to_area (h : ℕ) : Option String :=
  if h = 5 then some "love"
  else if h = 7 then some "love"
  else if h = 11 then some "wealth"
  else if h = 2 then some "wealth"
  else if h = 1 then some "health"
  else if h = 6 then some "career"
  else if h = 10 then some "career"
  else none

/-- Modelled from the spec: the house→area table the spec (and the dict
literal's inline comments) describe, in which houses {5,7,11} feed love,
{2,11} feed wealth, {1,6} feed health and {10,6} feed career. -/
def house_to_areas_spec (h : ℕ) : List String :=
  (if h = 5 ∨ h = 7 ∨ h = 11 then ["love"] else []) ++
  (if h = 2 ∨ h = 11 then ["wealth"] else []) ++
  (if h = 1 ∨ h = 6 then ["health"] else []) ++
  (if h = 10 ∨ h = 6 then ["career"] else [])

/-- The four per-window life-area scores of `key_areas` (contributing-event
lists omitted; they do not affect scores). -/
structure KeyAreas where
  love : ℤ
  career : ℤ
  wealth : ℤ
  health : ℤ
deriving DecidableEq, Repr

/-- The all-zero initial `key_areas` of a window. -/
def KeyAreas.zero : KeyAreas := ⟨0, 0, 0, 0⟩

/-- `PredictionEngine._update_area_scores`: add the effect's score delta to
the single area `house_to_area` assigns to the transiting house. -/
def update_area_scores (ka : KeyAreas) (effect : String)
    (transit_house : ℕ) : KeyAreas :=
  let score := effect_scores effect
  match house_to_area transit_house with
  | some "love" => { ka with love := ka.love + score }
  | some "career" => { ka with career := ka.career + score }
  | some "wealth" => { ka with wealth := ka.wealth + score }
  | some "health" => { ka with health := ka.health + score }
  | _ => ka

/-- `PredictionEngine._calculate_overall_rating`:
`max(1, min(10, 5 + total_score // 2))`, Python `//` being floor division. -/
def calculate_overall_rating (ka : KeyAreas) : ℤ :=
  max 1 (min 10 (5 + Int.fdiv (ka.love + ka.career + ka.wealth + ka.health) 2))

/-- A calendar date (time of day omitted: at the stepped window starts the
day is 1 and the loop comparisons of the claims never depend on the clock
time). -/
structure Date where
  year : ℕ
  month : ℕ
  day : ℕ
deriving DecidableEq, Repr

/-- Python `datetime` comparison restricted to dates: lexicographic on
(year, month, day). -/
def Date.le (a b : Date) : Bool :=
  decide (a.year < b.year) ||
  (decide (a.year = b.year) &&
    (decide (a.month < b.month) ||
     (decide (a.month = b.month) && decide (a.day ≤ b.day))))

/-- Gregorian leap-year rule (as in Python's `datetime`). -/
def isLeap (y : ℕ) : Bool :=
  (decide (y % 4 = 0) && decide (y % 100 ≠ 0)) || decide (y % 400 = 0)

/-- Month lengths of the Gregorian calendar. -/
def daysInMonth (y m : ℕ) : ℕ :=
  if m = 2 then (if isLeap y then 29 else 28)
  else if m = 4 ∨ m = 6 ∨ m = 9 ∨ m = 11 then 30
  else 31

/-- The successor date (`timedelta(days=1)`). -/
def nextDay (d : Date) : Date :=
  if d.day < daysInMonth d.year d.month then ⟨d.year, d.month, d.day + 1⟩
  else if d.month < 12 then ⟨d.year, d.month + 1, 1⟩
  else ⟨d.year + 1, 1, 1⟩

/-- `date + timedelta(days=n)`. -/
def addDays (n : ℕ) (d : Date) : Date := nextDay^[n] d

/-- The month stepping at the bottom of the `get_transit_predictions` loop:
`next_month = current_date.month % 12 + 1`, the year bumps when the month
wraps to January, and the day resets to 1. -/
def stepMonth (d : Date) : Date :=
  let nm := d.month % 12 + 1
  ⟨d.year + (if nm = 1 then 1 else 0), nm, 1⟩

/-- The window-start dates produced by the
`while current_date <= end_date` loop of `get_transit_predictions`,
as fuel-bounded recursion (fuel 20 exceeds the at most 14 iterations any
365-day span can produce, so the listed starts are exactly the loop's). -/
def windowStartsAux : ℕ → Date → Date → List Date
  | 0, _, _ => []
  | fuel + 1, cur, stop =>
    if cur.le stop then cur :: windowStartsAux fuel (stepMonth cur) stop
    else []

/-- The yearly overview's window starts (`generate_yearly_predictions`):
the loop runs from `today` to `today + timedelta(days=365)`. -/
def yearlyWindowStarts (today : Date) : List Date :=
  windowStartsAux 20 today (addDays 365 today)

/-- A monthly prediction as the yearly overview consumes it: its label and
its overall rating. -/
structure MonthPred where
  month : String
  rating : ℤ
deriving DecidableEq, Repr

/-- `sorted(predictions, key=lambda x: x["overall_rating"], reverse=True)`:
a stable descending sort by rating (Python's sort is a stable mergesort). -/
def sortByRatingDesc (l : List MonthPred) : List MonthPred :=
  l.mergeSort (fun a b => decide (b.rating ≤ a.rating))

/-- `best_months`: the first three of the descending sort
(`sorted_predictions[:3]`). -/
def best_months (l : List MonthPred) : List MonthPred :=
  (sortByRatingDesc l).take 3

/-- `challenging_months`: the last three of the descending sort
(`sorted_predictions[-3:]`). -/
def challenging_months (l : List MonthPred) : List MonthPred :=
  (sortByRatingDesc l).drop ((sortByRatingDesc l).length - 3)

/-- The `months` guard of `app.predict_love_24months`: `months > 12` raises
HTTP 400 "Max 12 months" before `generate_area_specific_predictions` is
reached; the endpoint's blanket `except Exception` handler then re-raises it
as HTTP 500 with detail `"Error: " + str(e)` where `str` of the Starlette
exception is "400: Max 12 months".  The window computation is passed as a
parameter so that theorems can state it is never consulted. -/
def predict_love_endpoint (months : ℕ)
    (computeWindows : ℕ → List MonthPred) :
    Except (ℕ × String) (List MonthPred) :=
  let inner : Except (ℕ × String) (List MonthPred) :=
    if months > 12 then Except.error (400, "Max 12 months")
    else Except.ok (computeWindows months)
  match inner with
  | Except.error (code, msg) =>
      Except.error (500, "Error: " ++ toString code ++ ": " ++ msg)
  | Except.ok r => Except.ok r

set_option maxRecDepth 2000

theorem pymod_nonneg (x : ℚ) {m : ℚ} (hm : 0 < m) : 0 ≤ pymod x m := by
  have h := Int.floor_le (x / m)
  have : (⌊x / m⌋ : ℚ) * m ≤ (x / m) * m :=
    mul_le_mul_of_nonneg_right h (le_of_lt hm)
  rw [div_mul_cancel₀ x (ne_of_gt hm)] at this
  unfold pymod
  linarith [this]

theorem pymod_lt (x : ℚ) {m : ℚ} (hm : 0 < m) : pymod x m < m := by
  have h := Int.lt_floor_add_one (x / m)
  have : (x / m) * m < ((⌊x / m⌋ : ℚ) + 1) * m :=
    mul_lt_mul_of_pos_right h hm
  rw [div_mul_cancel₀ x (ne_of_gt hm)] at this
  unfold pymod
  linarith [this]

theorem pymod_add_left (x m : ℚ) (hm : 0 < m) : pymod (m + x) m = pymod x m := by
  unfold pymod
  have hne : m ≠ 0 := ne_of_gt hm
  have : (m + x) / m = x / m + 1 := by field_simp; ring
  rw [this, Int.floor_add_one]
  push_cast
  ring

/-- Floor-characterization of `pymod`: `x = m * ⌊x/m⌋ + pymod x m`. -/
theorem pymod_spec (x m : ℚ) : x = m * ⌊x / m⌋ + pymod x m := by
  unfold pymod; ring

/-- C9: for all longitude x in [0,360), `longitude_to_sign` is total (indexing
never fails), the sign index is in [0,11], the degree-in-sign is in [0,30),
and sign_index·30 + degreeInSign = x. -/
theorem longitude_to_sign_total (x : ℚ) (hx0 : 0 ≤ x) (hx1 : x < 360) :
    ∃ s : String,
      longitude_to_sign x = some (s, pymod x 30) ∧
      (⌊x / 30⌋).toNat ≤ 11 ∧
      0 ≤ pymod x 30 ∧ pymod x 30 < 30 ∧
      ((⌊x / 30⌋).toNat : ℚ) * 30 + pymod x 30 = x := by
  have h30 : (0:ℚ) < 30 := by norm_num
  have hfl0 : 0 ≤ ⌊x / 30⌋ := Int.floor_nonneg.mpr (div_nonneg hx0 h30.le)
  have hflt : ⌊x / 30⌋ < 12 := by
    have hd : x / 30 < 12 := (div_lt_iff h30).mpr (by linarith)
    exact Int.floor_lt.mpr (by exact_mod_cast hd)
  have hlen : (⌊x / 30⌋).toNat < ZODIAC_SIGNS.length := by
    have : ZODIAC_SIGNS.length = 12 := by rfl
    omega
  refine ⟨ZODIAC_SIGNS.get ⟨(⌊x / 30⌋).toNat, hlen⟩, ?_, by omega,
    pymod_nonneg x h30, pymod_lt x h30, ?_⟩
  · simp [longitude_to_sign, List.get?_eq_get hlen]
  · have hcast : (((⌊x / 30⌋).toNat : ℤ) : ℚ) = ((⌊x / 30⌋ : ℤ) : ℚ) := by
      exact_mod_cast congrArg (fun n : ℤ => (n : ℚ)) (Int.toNat_of_nonneg hfl0)
    have hspec := pymod_spec x 30
    push_cast at hcast ⊢
    rw [hcast]
    linarith

/-- Witness for `longitude_to_sign_total` at longitude 45 (15° into the
second sign). -/
theorem longitude_to_sign_total_witness :
    (0 ≤ (45:ℚ) ∧ (45:ℚ) < 360) ∧
    (∃ s : String,
      longitude_to_sign 45 = some (s, pymod 45 30) ∧
      (⌊(45:ℚ) / 30⌋).toNat ≤ 11 ∧
      0 ≤ pymod 45 30 ∧ pymod 45 30 < 30 ∧
      ((⌊(45:ℚ) / 30⌋).toNat : ℚ) * 30 + pymod 45 30 = 45) :=
  ⟨⟨by norm_num, by norm_num⟩,
    longitude_to_sign_total 45 (by norm_num) (by norm_num)⟩

/-- C8 counterexample: longitude 359.9999995 lies in [0,360), yet
`int(359.9999995 / 13.333333) = 27` indexes out of the 27-name table
(valid indices 0–26): Python raises `IndexError`, modelled as `none`.
The truncated constant 13.333333 (< 360/27) makes every longitude in
[359.999991, 360) overflow the table. -/
theorem get_nakshatra_out_of_range :
    get_nakshatra (719999999/2000000 : ℚ) = none ∧
    (0:ℚ) ≤ 719999999/2000000 ∧ (719999999/2000000 : ℚ) < 360 := by
  refine ⟨?_, by norm_num, by norm_num⟩
  have hfl : ⌊(719999999/2000000 : ℚ) / nak13⌋ = 27 := by
    rw [Int.floor_eq_iff]
    constructor
    · norm_num [nak13]
    · norm_num [nak13]
  simp [get_nakshatra, hfl, NAKSHATRAS]

/-- C8 amended: the nakshatra computation is total only on
[0, 27·13.333333) = [0, 359.999991), not on all of [0,360); there it returns
one of the 27 fixed mansions, and the pada lies in 1–5 (not 1–4), with
pada ≤ 4 exactly when longitude mod 13.333333 < 4·3.333333 = 13.333332
(the sliver [13.333332, 13.333333) of each mansion yields pada 5). -/
theorem get_nakshatra_range (x : ℚ) (hx0 : 0 ≤ x) (hx1 : x < 27 * nak13) :
    ∃ nk : String, ∃ pada : ℤ,
      get_nakshatra x = some (nk, pada) ∧ nk ∈ NAKSHATRAS ∧
      1 ≤ pada ∧ pada ≤ 5 ∧
      (pada ≤ 4 ↔ pymod x nak13 < 4 * nak3) := by
  have h13 : (0:ℚ) < nak13 := by norm_num [nak13]
  have h3 : (0:ℚ) < nak3 := by norm_num [nak3]
  have hfl0 : 0 ≤ ⌊x / nak13⌋ := Int.floor_nonneg.mpr (div_nonneg hx0 h13.le)
  have hflt : ⌊x / nak13⌋ < 27 := by
    have hd : x / nak13 < 27 := (div_lt_iff h13).mpr (by linarith)
    exact Int.floor_lt.mpr (by exact_mod_cast hd)
  have hlen : (⌊x / nak13⌋).toNat < NAKSHATRAS.length := by
    have : NAKSHATRAS.length = 27 := by rfl
    omega
  have hq0 : 0 ≤ pymod x nak13 / nak3 := div_nonneg (pymod_nonneg x h13) h3.le
  have hq5 : pymod x nak13 / nak3 < 5 := by
    rw [div_lt_iff h3]
    have hlt := pymod_lt x h13
    norm_num [nak13, nak3] at hlt ⊢
    linarith
  have hp0 : 0 ≤ ⌊pymod x nak13 / nak3⌋ := Int.floor_nonneg.mpr hq0
  have hp5 : ⌊pymod x nak13 / nak3⌋ < 5 :=
    Int.floor_lt.mpr (by exact_mod_cast hq5)
  refine ⟨NAKSHATRAS.get ⟨(⌊x / nak13⌋).toNat, hlen⟩,
    ⌊pymod x nak13 / nak3⌋ + 1, ?_, List.get_mem _ _ _, by omega, by omega, ?_⟩
  · simp [get_nakshatra, List.get?_eq_get hlen]
  · constructor
    · intro hle
      have hfl4 : ⌊pymod x nak13 / nak3⌋ < 4 := by omega
      have : pymod x nak13 / nak3 < 4 := by
        have := Int.floor_le (pymod x nak13 / nak3)
        calc pymod x nak13 / nak3
            < ⌊pymod x nak13 / nak3⌋ + 1 := Int.lt_floor_add_one _
          _ ≤ 4 := by exact_mod_cast hfl4
      calc pymod x nak13 = pymod x nak13 / nak3 * nak3 := by
            field_simp
        _ < 4 * nak3 := by
            have := mul_lt_mul_of_pos_right this h3
            linarith
    · intro hlt
      have : pymod x nak13 / nak3 < 4 := (div_lt_iff h3).mpr hlt
      have : ⌊pymod x nak13 / nak3⌋ < 4 :=
        Int.floor_lt.mpr (by exact_mod_cast this)
      omega

/-- Witness for `get_nakshatra_range` at longitude 100 (the eighth
mansion, pada 3). -/
theorem get_nakshatra_range_witness :
    (0 ≤ (100:ℚ) ∧ (100:ℚ) < 27 * nak13) ∧
    (∃ nk : String, ∃ pada : ℤ,
      get_nakshatra 100 = some (nk, pada) ∧ nk ∈ NAKSHATRAS ∧
      1 ≤ pada ∧ pada ≤ 5 ∧
      (pada ≤ 4 ↔ pymod 100 nak13 < 4 * nak3)) :=
  ⟨⟨by norm_num, by norm_num [nak13]⟩,
    get_nakshatra_range 100 (by norm_num) (by norm_num [nak13])⟩

/-- C7: with the provider's tropical longitude and the ayanamsa both in
[0,360), Ketu's sidereal longitude is (Rahu's + 180) mod 360, both lie in
[0,360), and a negative sidereal difference is normalized by adding 360. -/
theorem ketu_opposite_rahu (tropical ayanamsa : ℚ)
    (ht0 : 0 ≤ tropical) (ht1 : tropical < 360)
    (ha0 : 0 ≤ ayanamsa) (ha1 : ayanamsa < 360) :
    get_planet_longitude Planet.Ketu tropical ayanamsa
      = pymod (get_planet_longitude Planet.Rahu tropical ayanamsa + 180) 360 ∧
    0 ≤ get_planet_longitude Planet.Rahu tropical ayanamsa ∧
    get_planet_longitude Planet.Rahu tropical ayanamsa < 360 ∧
    0 ≤ get_planet_longitude Planet.Ketu tropical ayanamsa ∧
    get_planet_longitude Planet.Ketu tropical ayanamsa < 360 ∧
    (tropical - ayanamsa < 0 →
      get_planet_longitude Planet.Rahu tropical ayanamsa
        = tropical - ayanamsa + 360) := by
  have h360 : (0:ℚ) < 360 := by norm_num
  have hKnn : 0 ≤ pymod (tropical - ayanamsa + 180) 360 := pymod_nonneg _ h360
  have hKetu : get_planet_longitude Planet.Ketu tropical ayanamsa
      = pymod (tropical - ayanamsa + 180) 360 := by
    simp [get_planet_longitude, not_lt.mpr hKnn]
  have hRahu : get_planet_longitude Planet.Rahu tropical ayanamsa
      = if tropical - ayanamsa < 0 then tropical - ayanamsa + 360
        else tropical - ayanamsa := by
    simp [get_planet_longitude]
  have hmain : get_planet_longitude Planet.Ketu tropical ayanamsa
      = pymod (get_planet_longitude Planet.Rahu tropical ayanamsa + 180) 360 := by
    rcases lt_or_le (tropical - ayanamsa) 0 with hneg | hpos
    · rw [hKetu, hRahu, if_pos hneg]
      have harr : tropical - ayanamsa + 360 + 180
          = 360 + (tropical - ayanamsa + 180) := by ring
      rw [harr, pymod_add_left _ _ h360]
    · rw [hKetu, hRahu, if_neg (not_lt.mpr hpos)]
  refine ⟨hmain, ?_, ?_, ?_, ?_, ?_⟩
  · rw [hRahu]; split <;> linarith
  · rw [hRahu]; split <;> linarith
  · rw [hKetu]; exact hKnn
  · rw [hKetu]; exact pymod_lt _ h360
  · intro hneg; rw [hRahu, if_pos hneg]

/-- Witness for `ketu_opposite_rahu` with tropical longitude 10 and
ayanamsa 15 (sidereal difference −5, normalized to 355). -/
theorem ketu_opposite_rahu_witness :
    (0 ≤ (10:ℚ) ∧ (10:ℚ) < 360 ∧ 0 ≤ (15:ℚ) ∧ (15:ℚ) < 360) ∧
    (get_planet_longitude Planet.Ketu 10 15
      = pymod (get_planet_longitude Planet.Rahu 10 15 + 180) 360 ∧
    0 ≤ get_planet_longitude Planet.Rahu 10 15 ∧
    get_planet_longitude Planet.Rahu 10 15 < 360 ∧
    0 ≤ get_planet_longitude Planet.Ketu 10 15 ∧
    get_planet_longitude Planet.Ketu 10 15 < 360 ∧
    ((10:ℚ) - 15 < 0 →
      get_planet_longitude Planet.Rahu 10 15 = 10 - 15 + 360)) :=
  ⟨⟨by norm_num, by norm_num, by norm_num, by norm_num⟩,
    ketu_opposite_rahu 10 15 (by norm_num) (by norm_num) (by norm_num)
      (by norm_num)⟩

/-- C10: any nakshatra name the computation produces comes from the fixed
27-name table, which spells the 19th mansion "Mula"; the −10 unfavorable
adjustment therefore fires exactly for Ashlesha, Jyeshtha and Ardra and can
never fire for Mula, since the unfavorable list checks for "Moola", a string
the table never produces. -/
theorem moon_adjustment_never_moola (x : ℚ) (nk : String) (pada : ℤ)
    (h : get_nakshatra x = some (nk, pada)) :
    (moon_nakshatra_adjustment nk = -10 ↔
      nk = "Ashlesha" ∨ nk = "Jyeshtha" ∨ nk = "Ardra") ∧
    nk ≠ "Moola" ∧ "Mula" ∈ NAKSHATRAS ∧ "Moola" ∉ NAKSHATRAS ∧
    moon_nakshatra_adjustment "Mula" = 0 := by
  have hmem : nk ∈ NAKSHATRAS := by
    rcases Option.map_eq_some'.mp h with ⟨a, ha, hfa⟩
    have heq : a = nk := congrArg Prod.fst hfa
    exact heq ▸ List.get?_mem ha
  have hall : ∀ s ∈ NAKSHATRAS,
      (moon_nakshatra_adjustment s = -10 ↔
        s = "Ashlesha" ∨ s = "Jyeshtha" ∨ s = "Ardra") ∧ s ≠ "Moola" := by
    decide
  exact ⟨(hall nk hmem).1, (hall nk hmem).2, by decide, by decide, by decide⟩

/-- Witness for `moon_adjustment_never_moola` at longitude 100
(nakshatra "Pushya", pada 3). -/
theorem moon_adjustment_never_moola_witness :
    get_nakshatra 100 = some ("Pushya", 3) ∧
    ((moon_nakshatra_adjustment "Pushya" = -10 ↔
      "Pushya" = "Ashlesha" ∨ "Pushya" = "Jyeshtha" ∨ "Pushya" = "Ardra") ∧
    "Pushya" ≠ "Moola" ∧ "Mula" ∈ NAKSHATRAS ∧ "Moola" ∉ NAKSHATRAS ∧
    moon_nakshatra_adjustment "Mula" = 0) := by
  have h1 : ⌊(100:ℚ) / nak13⌋ = 7 := by
    rw [Int.floor_eq_iff]
    constructor <;> norm_num [nak13]
  have h2 : ⌊pymod 100 nak13 / nak3⌋ = 2 := by
    unfold pymod
    rw [h1, Int.floor_eq_iff]
    constructor <;> norm_num [nak13, nak3]
  have h : get_nakshatra 100 = some ("Pushya", 3) := by
    simp [get_nakshatra, h1, h2, NAKSHATRAS]
  exact ⟨h, moon_adjustment_never_moola 100 "Pushya" 3 h⟩

theorem cuspChain_zero (cusps : Fin 12 → ℚ) (d : Fin 12) :
    cuspChain cusps d 0 = cusps d := by
  simp [cuspChain]

theorem cuspChain_one (cusps : Fin 12 → ℚ) (d : Fin 12) :
    cuspChain cusps d 1 = cusps (d + 1) := by
  simp [cuspChain]

theorem cuspChain_twelve (cusps : Fin 12 → ℚ) (d : Fin 12) :
    cuspChain cusps d 12 = cusps d := by
  have h12 : ((12 : ℕ) : Fin 12) = 0 := by decide
  simp [cuspChain, h12]

theorem cuspChain_succ (cusps : Fin 12 → ℚ) (d : Fin 12) (j : ℕ) :
    cuspChain cusps d (j + 1) = cusps (d + (j : Fin 12) + 1) := by
  simp [cuspChain, Nat.cast_add, Nat.cast_one, add_assoc]

/-- A nonzero offset lands away from the wrap index. -/
theorem offset_ne (d : Fin 12) (a : ℕ) (h1 : 1 ≤ a) (h11 : a ≤ 11) :
    d + (a : Fin 12) ≠ d := by
  intro h
  have h0 : (a : Fin 12) = 0 := by
    have := add_right_eq_self.mp h
    exact this
  have hval : ((a : Fin 12) : ℕ) = a % 12 := Fin.val_natCast a 12
  rw [h0] at hval
  simp at hval
  omega

theorem cuspChain_step (cusps : Fin 12 → ℚ) (d : Fin 12)
    (hasc : ∀ i, i ≠ d → cusps i < cusps (i + 1))
    (j : ℕ) (h1 : 1 ≤ j) (h11 : j ≤ 11) :
    cuspChain cusps d j < cuspChain cusps d (j + 1) := by
  rw [cuspChain_succ]
  exact hasc (d + (j : Fin 12)) (offset_ne d j h1 h11)

theorem cuspChain_mono (cusps : Fin 12 → ℚ) (d : Fin 12)
    (hasc : ∀ i, i ≠ d → cusps i < cusps (i + 1)) :
    ∀ k j : ℕ, 1 ≤ j → j < k → k ≤ 12 →
      cuspChain cusps d j < cuspChain cusps d k := by
  intro k
  induction k with
  | zero => intro j _ h2 _; omega
  | succ k ih =>
    intro j h1 hjk hk
    rcases Nat.lt_succ_iff_lt_or_eq.mp hjk with h | h
    · exact lt_trans (ih j h1 h (by omega))
        (cuspChain_step cusps d hasc k (by omega) (by omega))
    · subst h
      exact cuspChain_step cusps d hasc j h1 (by omega)

theorem cuspChain_le (cusps : Fin 12 → ℚ) (d : Fin 12)
    (hasc : ∀ i, i ≠ d → cusps i < cusps (i + 1))
    (j k : ℕ) (h1 : 1 ≤ j) (hjk : j ≤ k) (hk : k ≤ 12) :
    cuspChain cusps d j ≤ cuspChain cusps d k := by
  rcases Nat.eq_or_lt_of_le hjk with h | h
  · rw [h]
  · exact (cuspChain_mono cusps d hasc k j h1 h hk).le

/-- Membership at the wrap index is the disjunctive test. -/
theorem house_memb_wrap (cusps : Fin 12 → ℚ) (d : Fin 12)
    (hdesc : cusps (d + 1) < cusps d) (x : ℚ) :
    house_memb cusps x d = true ↔ (cusps d ≤ x ∨ x < cusps (d + 1)) := by
  simp [house_memb, hdesc, ge_iff_le]

/-- Membership at a non-wrap offset is the conjunctive interval test. -/
theorem house_memb_offset (cusps : Fin 12 → ℚ) (d : Fin 12)
    (hasc : ∀ i, i ≠ d → cusps i < cusps (i + 1)) (x : ℚ)
    (a : ℕ) (h1 : 1 ≤ a) (h11 : a ≤ 11) :
    house_memb cusps x (d + (a : Fin 12)) = true ↔
      (cuspChain cusps d a ≤ x ∧ x < cuspChain cusps d (a + 1)) := by
  have ha := hasc (d + (a : Fin 12)) (offset_ne d a h1 h11)
  rw [cuspChain_succ]
  simp [house_memb, not_lt.mpr ha.le, cuspChain]

/-- Every index is some offset in [0,11] from the wrap index. -/
theorem offset_decomp (d i : Fin 12) :
    ∃ j : ℕ, j ≤ 11 ∧ i = d + (j : Fin 12) := by
  refine ⟨(i - d).val, Nat.lt_succ_iff.mp (i - d).isLt, ?_⟩
  rw [Fin.cast_val_eq_self (i - d)]
  ring

/-- Any two matching intervals coincide (no overlap). -/
theorem house_memb_unique (cusps : Fin 12 → ℚ) (x : ℚ) (d : Fin 12)
    (hdesc : cusps (d + 1) < cusps d)
    (hasc : ∀ i, i ≠ d → cusps i < cusps (i + 1)) :
    ∀ j k : Fin 12, house_memb cusps x j = true →
      house_memb cusps x k = true → j = k := by
  have key : ∀ a b : ℕ, a ≤ 11 → b ≤ 11 →
      house_memb cusps x (d + (a : Fin 12)) = true →
      house_memb cusps x (d + (b : Fin 12)) = true →
      1 ≤ b → a < b → False := by
    intro a b ha11 hb11 hma hmb hb1 hab
    obtain ⟨hbl, hbu⟩ := (house_memb_offset cusps d hasc x b hb1 hb11).mp hmb
    rcases Nat.eq_zero_or_pos a with ha0 | ha1
    · subst ha0
      rw [Nat.cast_zero, add_zero] at hma
      rcases (house_memb_wrap cusps d hdesc x).mp hma with hge | hlt
      · have h1 : cuspChain cusps d (b + 1) ≤ cuspChain cusps d 12 :=
          cuspChain_le cusps d hasc (b + 1) 12 (by omega) (by omega) le_rfl
        rw [cuspChain_twelve] at h1
        linarith
      · have h1 : cuspChain cusps d 1 ≤ cuspChain cusps d b :=
          cuspChain_le cusps d hasc 1 b le_rfl hb1 (by omega)
        rw [cuspChain_one] at h1
        linarith
    · obtain ⟨hal, hau⟩ := (house_memb_offset cusps d hasc x a ha1 ha11).mp hma
      have h1 : cuspChain cusps d (a + 1) ≤ cuspChain cusps d b :=
        cuspChain_le cusps d hasc (a + 1) b (by omega) (by omega) (by omega)
      linarith
  intro j k hj hk
  obtain ⟨a, ha11, rfl⟩ := offset_decomp d j
  obtain ⟨b, hb11, rfl⟩ := offset_decomp d k
  rcases Nat.lt_trichotomy a b with h | h | h
  · exact absurd (key a b ha11 hb11 hj hk (by omega) h) not_false
  · rw [h]
  · exact absurd (key b a hb11 ha11 hk hj (by omega) h) not_false

/-- Some interval matches (no gap). -/
theorem house_memb_exists (cusps : Fin 12 → ℚ) (x : ℚ) (d : Fin 12)
    (hdesc : cusps (d + 1) < cusps d)
    (hasc : ∀ i, i ≠ d → cusps i < cusps (i + 1)) :
    ∃ i : Fin 12, house_memb cusps x i = true := by
  by_cases hcase : cusps d ≤ x ∨ x < cusps (d + 1)
  · exact ⟨d, (house_memb_wrap cusps d hdesc x).mpr hcase⟩
  · push_neg at hcase
    obtain ⟨hxd, hxd1⟩ := hcase
    have hS : ((Finset.Icc 1 11).filter
        (fun j => cuspChain cusps d j ≤ x)).Nonempty := by
      refine ⟨1, ?_⟩
      rw [Finset.mem_filter, Finset.mem_Icc, cuspChain_one]
      exact ⟨⟨le_rfl, by omega⟩, hxd1⟩
    set S := (Finset.Icc 1 11).filter (fun j => cuspChain cusps d j ≤ x)
      with hSdef
    set m := S.max' hS with hmdef
    have hmem : m ∈ S := Finset.max'_mem S hS
    rw [hSdef, Finset.mem_filter, Finset.mem_Icc] at hmem
    obtain ⟨⟨hm1, hm11⟩, hmx⟩ := hmem
    have hupper : x < cuspChain cusps d (m + 1) := by
      rcases Nat.eq_or_lt_of_le hm11 with h11 | h11
      · rw [h11]
        rw [show (11:ℕ) + 1 = 12 from rfl, cuspChain_twelve]
        exact hxd
      · by_contra hcon
        push_neg at hcon
        have hin : m + 1 ∈ S := by
          rw [hSdef, Finset.mem_filter, Finset.mem_Icc]
          exact ⟨⟨by omega, by omega⟩, hcon⟩
        have := Finset.le_max' S (m + 1) hin
        omega
    exact ⟨d + (m : Fin 12),
      (house_memb_offset cusps d hasc x m hm1 hm11).mpr ⟨hmx, hupper⟩⟩

/-- C3: for every valid cusp set and every longitude in [0,360), exactly one
of the 12 wrap-aware cusp intervals matches — the intervals cover the circle
with no gap and no overlap — and `get_planet_house` returns that house
number (the defensive fallback is never taken). -/
theorem get_planet_house_partition (cusps : Fin 12 → ℚ) (x : ℚ)
    (hv : validCusps cusps) (hx0 : 0 ≤ x) (hx1 : x < 360) :
    ∃ i : Fin 12, house_memb cusps x i = true ∧
      (∀ j : Fin 12, house_memb cusps x j = true → j = i) ∧
      get_planet_house x cusps = i.val + 1 := by
  obtain ⟨hrange, d, hdesc, hasc⟩ := hv
  obtain ⟨i0, hi0⟩ := house_memb_exists cusps x d hdesc hasc
  have huniq := house_memb_unique cusps x d hdesc hasc
  have hret : get_planet_house x cusps = i0.val + 1 := by
    unfold get_planet_house
    cases hfind : (List.finRange 12).find? (house_memb cusps x) with
    | none =>
      exfalso
      have hnone := List.find?_eq_none.mp hfind i0 (List.mem_finRange i0)
      rw [hi0] at hnone
      exact hnone rfl
    | some j =>
      have hj := List.find?_some hfind
      rw [huniq j i0 hj hi0]
  exact ⟨i0, hi0, fun j hj => huniq j i0 hj hi0, hret⟩

/-- Witness for `get_planet_house_partition`: with `witnessCusps` and
longitude 45, exactly one interval matches and the house is returned. -/
theorem get_planet_house_partition_witness :
    (validCusps witnessCusps ∧ 0 ≤ (45:ℚ) ∧ (45:ℚ) < 360) ∧
    (∃ i : Fin 12, house_memb witnessCusps 45 i = true ∧
      (∀ j : Fin 12, house_memb witnessCusps 45 j = true → j = i) ∧
      get_planet_house 45 witnessCusps = i.val + 1) :=
  ⟨⟨by unfold validCusps; decide, by norm_num, by norm_num⟩,
    get_planet_house_partition witnessCusps 45
      (by unfold validCusps; decide) (by norm_num) (by norm_num)⟩

/-- C4 counterexample: with the degenerate cusp set in which all twelve
cusps equal 0, no cusp interval matches longitude 10, yet `get_planet_house`
silently returns house 1 — the source raises no InternalInconsistency error
(it has no such error path at all). -/
theorem no_match_silently_defaults :
    (∀ i : Fin 12, house_memb (fun _ => 0) 10 i = false) ∧
    get_planet_house 10 (fun _ => 0) = 1 := by
  constructor
  · decide
  · decide

/-- C4 amended: when the membership test finds no matching interval,
`get_planet_house` returns the defensive default house 1 rather than
surfacing a typed InternalInconsistency failure. -/
theorem no_match_returns_default (cusps : Fin 12 → ℚ) (x : ℚ)
    (h : ∀ i : Fin 12, house_memb cusps x i = false) :
    get_planet_house x cusps = 1 := by
  unfold get_planet_house
  cases hfind : (List.finRange 12).find? (house_memb cusps x) with
  | none => rfl
  | some j =>
    have hj := List.find?_some hfind
    rw [h j] at hj
    cases hj

/-- Witness for `no_match_returns_default` at the all-zero cusp set and
longitude 10. -/
theorem no_match_returns_default_witness :
    (∀ i : Fin 12, house_memb (fun _ => 0) 10 i = false) ∧
    get_planet_house 10 (fun _ => (0:ℚ)) = 1 :=
  ⟨by decide, no_match_returns_default (fun _ => 0) 10 (by decide)⟩

/-- C1 counterexample: the Sun — neither benefic nor malefic — transiting
house 1 (a benefic house) is classified "mixed" by the code, not "neutral"
as the claim states for bodies that are neither benefic nor malefic. -/
theorem transit_effect_sun_house1_mixed :
    analyze_transit_effect Planet.Sun 1 = "mixed" ∧
    analyze_transit_effect Planet.Sun 1 ≠ "neutral" := by
  constructor
  · decide
  · decide

/-- C1 amended: for every tracked-or-node body and house 1–12, the effect is
"positive" iff benefic house and benefic body; "challenging" iff challenging
house and malefic body; "mixed" iff benefic house with a non-benefic body or
challenging house with a non-malefic body (so Sun or Moon in such houses is
"mixed"); and "neutral" iff the house is 3 — the only house in neither
list. -/
theorem transit_effect_classification (p : Planet) (h : ℕ)
    (h1 : 1 ≤ h) (h12 : h ≤ 12) :
    (analyze_transit_effect p h = "positive" ↔
      h ∈ beneficial_houses ∧ is_benefic p = true) ∧
    (analyze_transit_effect p h = "challenging" ↔
      h ∈ challenging_houses ∧ is_malefic p = true) ∧
    (analyze_transit_effect p h = "mixed" ↔
      ((h ∈ beneficial_houses ∧ is_benefic p = false) ∨
       (h ∈ challenging_houses ∧ is_malefic p = false))) ∧
    (analyze_transit_effect p h = "neutral" ↔ h = 3) := by
  interval_cases h <;> cases p <;> decide

/-- Witness for `transit_effect_classification` at Jupiter in house 5. -/
theorem transit_effect_classification_witness :
    ((1:ℕ) ≤ 5 ∧ (5:ℕ) ≤ 12) ∧
    ((analyze_transit_effect Planet.Jupiter 5 = "positive" ↔
      5 ∈ beneficial_houses ∧ is_benefic Planet.Jupiter = true) ∧
    (analyze_transit_effect Planet.Jupiter 5 = "challenging" ↔
      5 ∈ challenging_houses ∧ is_malefic Planet.Jupiter = true) ∧
    (analyze_transit_effect Planet.Jupiter 5 = "mixed" ↔
      ((5 ∈ beneficial_houses ∧ is_benefic Planet.Jupiter = false) ∨
       (5 ∈ challenging_houses ∧ is_malefic Planet.Jupiter = false))) ∧
    (analyze_transit_effect Planet.Jupiter 5 = "neutral" ↔ (5:ℕ) = 3)) :=
  ⟨⟨by norm_num, by norm_num⟩,
    transit_effect_classification Planet.Jupiter 5 (by norm_num) (by norm_num)⟩

/-- C2, evaluated at the failing input: the spec table feeds house 11 into
both love and wealth, so a "positive" effect there should add +2 to each;
the code adds +2 only to wealth and leaves love untouched (and a "positive"
effect in house 6 feeds only career, not health).  The claim's scenario — 3
bodies positive in love-linked houses, 0 challenging, love +6, overall
rating 8 — does hold when the three positives sit in houses 5 and 7, the
only houses that still feed love. -/
theorem update_area_scores_house11_drops_love :
    "love" ∈ house_to_areas_spec 11 ∧
    "wealth" ∈ house_to_areas_spec 11 ∧
    (update_area_scores KeyAreas.zero "positive" 11).love = 0 ∧
    (update_area_scores KeyAreas.zero "positive" 11).wealth = 2 ∧
    "health" ∈ house_to_areas_spec 6 ∧
    (update_area_scores KeyAreas.zero "positive" 6).health = 0 ∧
    (update_area_scores KeyAreas.zero "positive" 6).career = 2 ∧
    (update_area_scores (update_area_scores
        (update_area_scores KeyAreas.zero "positive" 5)
        "positive" 7) "positive" 5).love = 6 ∧
    calculate_overall_rating (update_area_scores (update_area_scores
        (update_area_scores KeyAreas.zero "positive" 5)
        "positive" 7) "positive" 5) = 8 := by
  decide

theorem addDays_split (a b : ℕ) (d : Date) :
    addDays (b + a) d = addDays b (addDays a d) := by
  unfold addDays
  exact Function.iterate_add_apply nextDay b a d

/-- 2026-10-12 plus 365 days is 2027-10-12 (computed in 50-day chunks). -/
theorem addDays_365_start : addDays 365 ⟨2026, 10, 12⟩ = ⟨2027, 10, 12⟩ := by
  have e1 : addDays 50 ⟨2026, 10, 12⟩ = ⟨2026, 12, 1⟩ := by decide
  have e2 : addDays 50 ⟨2026, 12, 1⟩ = ⟨2027, 1, 20⟩ := by decide
  have e3 : addDays 50 ⟨2027, 1, 20⟩ = ⟨2027, 3, 11⟩ := by decide
  have e4 : addDays 50 ⟨2027, 3, 11⟩ = ⟨2027, 4, 30⟩ := by decide
  have e5 : addDays 50 ⟨2027, 4, 30⟩ = ⟨2027, 6, 19⟩ := by decide
  have e6 : addDays 50 ⟨2027, 6, 19⟩ = ⟨2027, 8, 8⟩ := by decide
  have e7 : addDays 50 ⟨2027, 8, 8⟩ = ⟨2027, 9, 27⟩ := by decide
  have e8 : addDays 15 ⟨2027, 9, 27⟩ = ⟨2027, 10, 12⟩ := by decide
  have h365 : (365 : ℕ) = 15 + 50 + 50 + 50 + 50 + 50 + 50 + 50 := by
    norm_num
  rw [h365, addDays_split, e1, addDays_split, e2, addDays_split, e3,
    addDays_split, e4, addDays_split, e5, addDays_split, e6,
    addDays_split, e7, e8]

/-- The window starts the yearly overview evaluates from 2026-10-12. -/
theorem yearlyWindowStarts_2026 :
    yearlyWindowStarts ⟨2026, 10, 12⟩ =
      [⟨2026, 10, 12⟩, ⟨2026, 11, 1⟩, ⟨2026, 12, 1⟩, ⟨2027, 1, 1⟩,
       ⟨2027, 2, 1⟩, ⟨2027, 3, 1⟩, ⟨2027, 4, 1⟩, ⟨2027, 5, 1⟩,
       ⟨2027, 6, 1⟩, ⟨2027, 7, 1⟩, ⟨2027, 8, 1⟩, ⟨2027, 9, 1⟩,
       ⟨2027, 10, 1⟩] := by
  unfold yearlyWindowStarts
  rw [addDays_365_start]
  decide

/-- C5 counterexample: starting the yearly overview at 2026-10-12, the
monthly while-loop evaluates 13 windows — the start date itself plus the
twelve month-firsts inside the 365-day span — not 12. -/
theorem yearly_window_count_thirteen :
    (yearlyWindowStarts ⟨2026, 10, 12⟩).length = 13 ∧ (13 : ℕ) ≠ 12 := by
  rw [yearlyWindowStarts_2026]
  constructor
  · rfl
  · decide

/-- C5 amended: the yearly overview walks the start window plus every
subsequent calendar-month first inside the 365-day span — for the start
2026-10-12 these are exactly the 13 dates listed — and its
best/challenging month lists are the first three and last three of the
window predictions sorted descending by overall rating (the sort being a
permutation of the predictions, sorted under ≥ on ratings). -/
theorem yearly_overview_windows (l : List MonthPred) :
    yearlyWindowStarts ⟨2026, 10, 12⟩ =
      [⟨2026, 10, 12⟩, ⟨2026, 11, 1⟩, ⟨2026, 12, 1⟩, ⟨2027, 1, 1⟩,
       ⟨2027, 2, 1⟩, ⟨2027, 3, 1⟩, ⟨2027, 4, 1⟩, ⟨2027, 5, 1⟩,
       ⟨2027, 6, 1⟩, ⟨2027, 7, 1⟩, ⟨2027, 8, 1⟩, ⟨2027, 9, 1⟩,
       ⟨2027, 10, 1⟩] ∧
    (sortByRatingDesc l).Perm l ∧
    List.Sorted (fun a b : MonthPred => b.rating ≤ a.rating)
      (sortByRatingDesc l) ∧
    best_months l = (sortByRatingDesc l).take 3 ∧
    challenging_months l
      = (sortByRatingDesc l).drop ((sortByRatingDesc l).length - 3) := by
  refine ⟨yearlyWindowStarts_2026, List.mergeSort_perm l _, ?_, rfl, rfl⟩
  have hs := @List.sorted_mergeSort MonthPred
    (fun a b : MonthPred => decide (b.rating ≤ a.rating))
    (fun a b c h₁ h₂ => by
      simp only [decide_eq_true_eq] at h₁ h₂ ⊢
      exact le_trans h₂ h₁)
    (fun a b => by
      simp only [Bool.or_eq_true, decide_eq_true_eq]
      exact le_total b.rating a.rating)
    l
  simpa [List.Sorted, sortByRatingDesc] using hs

/-- C6: any area-specific request whose range exceeds 12 months (months=15
in the scenario) is rejected by the `months > 12` guard before any window
computation runs: the result is the "Max 12 months" rejection (wrapped by
the endpoint's blanket handler into a 500) and is the same for every
possible window computation, so no monthly window is ever evaluated. -/
theorem months_over_12_rejected (months : ℕ)
    (f g : ℕ → List MonthPred) (h : 12 < months) :
    predict_love_endpoint months f
      = Except.error (500, "Error: 400: Max 12 months") ∧
    predict_love_endpoint months f = predict_love_endpoint months g := by
  have hall : ∀ w : ℕ → List MonthPred, predict_love_endpoint months w
      = Except.error (500, "Error: 400: Max 12 months") := by
    intro w
    unfold predict_love_endpoint
    rw [if_pos h]
    rfl
  exact ⟨hall f, (hall f).trans (hall g).symm⟩

/-- Witness for `months_over_12_rejected` at months = 15. -/
theorem months_over_12_rejected_witness :
    (12 < 15) ∧
    (predict_love_endpoint 15 (fun _ => [])
      = Except.error (500, "Error: 400: Max 12 months") ∧
    predict_love_endpoint 15 (fun _ => [])
      = predict_love_endpoint 15 (fun _ => [⟨"January 2027", 5⟩])) :=
  ⟨by norm_num,
    months_over_12_rejected 15 (fun _ => [])
      (fun _ => [⟨"January 2027", 5⟩]) (by norm_num)⟩


end Astro

